import Mathlib

/-!
Verification of the countdown engine in `src/script.js`.

The script computes, once per second, the time remaining until a fixed
target instant (`countdownDate`, epoch milliseconds), writes the four
unit values (days / hours / minutes / seconds) into four DOM text slots,
and, when the remaining distance becomes negative, cancels the recurring
timer and replaces the countdown container with a terminal message.

Embedding notes:
* Instants and durations are epoch milliseconds, modelled as `Int`.
* JavaScript's `%` on integers is the truncating remainder (sign follows
  the dividend): modelled by `Int.tmod`.
* `Math.floor(a / b)` on exact integer inputs with positive literal `b`
  is flooring division: modelled by `Int.fdiv`.
* `Number.prototype.toString()` for an integer is its plain decimal
  representation, with a leading minus sign when negative: modelled by
  `jsToString` below.
* `String.prototype.padStart(2, "0")` is modelled by `padStart2`.
* The DOM (four slot elements plus the `countdown-boxes` container) and
  the interval-timer handle are modelled by `PageState`; one invocation
  of `updateCountdown` is one tick, and `runTicks` models the scheduler
  delivering ticks only while the interval has not been cleared.
-/

/-- Result of the pure remaining-time computation (lines 12-19 of
`src/script.js`, the spec's `computeRemaining`): the four unit counts and
the expiry flag `distance < 0`. -/
structure RemainingTime where
  days : Int
  hours : Int
  minutes : Int
  seconds : Int
  expired : Bool
deriving Repr, DecidableEq

/-- The remaining-time record as a function of the raw millisecond
distance, mirroring the source's arithmetic on its local `distance`:
`days = Math.floor(distance / (1000*60*60*24))`,
`hours = Math.floor((distance % (1000*60*60*24)) / (1000*60*60))`,
`minutes = Math.floor((distance % (1000*60*60)) / (1000*60))`,
`seconds = Math.floor((distance % (1000*60)) / 1000)`,
expiry at `distance < 0`. -/
def remainingOfDistance (distance : Int) : RemainingTime :=
  { days := Int.fdiv distance (1000 * 60 * 60 * 24)
    hours := Int.fdiv (Int.tmod distance (1000 * 60 * 60 * 24)) (1000 * 60 * 60)
    minutes := Int.fdiv (Int.tmod distance (1000 * 60 * 60)) (1000 * 60)
    seconds := Int.fdiv (Int.tmod distance (1000 * 60)) 1000
    expired := decide (distance < 0) }

/-- The pure core of `updateCountdown`: `distance = countdownDate - now`
followed by the unit computations of `remainingOfDistance`. -/
def computeRemaining (countdownDate now : Int) : RemainingTime :=
  remainingOfDistance (countdownDate - now)

/-- One decimal digit character, `48 + d` in code-point terms, as
produced by JavaScript integer-to-string conversion. -/
def digitOf (d : Nat) : Char := Nat.digitChar d

/-- Decimal digits of a natural number, most significant first, appended
in front of `acc`; `fuel` bounds the recursion depth (any `fuel ≥ n`
yields the exact decimal representation of `n`). -/
def natDigitsAux : Nat → Nat → List Char → List Char
  | 0, n, acc => digitOf (n % 10) :: acc
  | fuel + 1, n, acc =>
    if n < 10 then digitOf n :: acc
    else natDigitsAux fuel (n / 10) (digitOf (n % 10) :: acc)

/-- Decimal digit list of a natural number, most significant first. -/
def natDigits (n : Nat) : List Char := natDigitsAux n n []

/-- JavaScript `Number.prototype.toString()` restricted to integers:
plain decimal representation, prefixed with a minus sign when
negative. -/
def jsToString (i : Int) : String :=
  if i < 0 then "-" ++ String.mk (natDigits (-i).toNat)
  else String.mk (natDigits i.toNat)

/-- JavaScript `String.prototype.padStart(2, "0")`: strings of length at
least 2 are unchanged, shorter strings are left-padded with the digit
zero up to length 2. -/
def padStart2 (s : String) : String :=
  if s.length < 2 then String.mk (List.replicate (2 - s.length) '0') ++ s
  else s

/-- The terminal message the source writes into the container
`countdown-boxes` on expiry (line 37 of `src/script.js`). -/
def renaissanceMessage : String :=
  "<div class=\x27time-box\x27><span>The Renaissance has begun!</span></div>"

/-- The page state touched by the countdown: the text content of the
four display slots, the inner HTML of the `countdown-boxes` container,
and whether the recurring interval is still registered. -/
structure PageState where
  daysSlot : String
  hoursSlot : String
  minutesSlot : String
  secondsSlot : String
  boxesHTML : String
  timerActive : Bool
deriving Repr, DecidableEq

/-- One tick of `updateCountdown` (lines 10-39 of `src/script.js`):
compute the units from `distance = countdownDate - now`, write all four
formatted values into the slots unconditionally, then, if
`distance < 0`, clear the interval and replace the container content
with the terminal message. -/
def updateCountdown (countdownDate now : Int) (s : PageState) : PageState :=
  let distance := countdownDate - now
  let days := Int.fdiv distance (1000 * 60 * 60 * 24)
  let hours := Int.fdiv (Int.tmod distance (1000 * 60 * 60 * 24)) (1000 * 60 * 60)
  let minutes := Int.fdiv (Int.tmod distance (1000 * 60 * 60)) (1000 * 60)
  let seconds := Int.fdiv (Int.tmod distance (1000 * 60)) 1000
  let afterWrites : PageState :=
    { s with
      daysSlot := padStart2 (jsToString days)
      hoursSlot := padStart2 (jsToString hours)
      minutesSlot := padStart2 (jsToString minutes)
      secondsSlot := padStart2 (jsToString seconds) }
  if distance < 0 then
    { afterWrites with timerActive := false, boxesHTML := renaissanceMessage }
  else
    afterWrites

/-- The scheduler: deliver ticks at the given sample instants, in order,
but only while the interval is still registered; once `timerActive` is
false (the source's `clearInterval`) no further callback fires. -/
def runTicks (countdownDate : Int) (nows : List Int) (s : PageState) : PageState :=
  match nows with
  | [] => s
  | n :: rest =>
    if s.timerActive then runTicks countdownDate rest (updateCountdown countdownDate n s)
    else s

/-! ### Bridging lemmas between JavaScript arithmetic and Euclidean division -/

/-- Truncating remainder negates with its dividend. -/
lemma tmod_neg_dividend (a b : Int) : Int.tmod (-a) b = -Int.tmod a b := by
  rw [Int.tmod_def, Int.tmod_def, Int.neg_tdiv]
  ring

/-- For a nonpositive dividend and nonnegative divisor, the truncating
remainder is minus the Euclidean remainder of the negated dividend. -/
lemma tmod_of_nonpos {a : Int} (ha : a ≤ 0) {b : Int} (hb : 0 ≤ b) :
    Int.tmod a b = -((-a) % b) := by
  have h := tmod_neg_dividend (-a) b
  rw [neg_neg] at h
  rw [h, Int.tmod_eq_emod (by omega) hb]

/-- On a nonnegative distance the JavaScript formulas collapse to
Euclidean division and remainder, and the expiry flag is false. -/
lemma remainingOfDistance_of_nonneg {d : Int} (h : 0 ≤ d) :
    remainingOfDistance d =
      { days := d / 86400000
        hours := d % 86400000 / 3600000
        minutes := d % 3600000 / 60000
        seconds := d % 60000 / 1000
        expired := false } := by
  unfold remainingOfDistance
  rw [Int.fdiv_eq_ediv _ (by norm_num), Int.fdiv_eq_ediv _ (by norm_num),
    Int.fdiv_eq_ediv _ (by norm_num), Int.fdiv_eq_ediv _ (by norm_num),
    Int.tmod_eq_emod h (by norm_num), Int.tmod_eq_emod h (by norm_num),
    Int.tmod_eq_emod h (by norm_num)]
  simp only [RemainingTime.mk.injEq]
  refine ⟨by norm_num, by norm_num, by norm_num, by norm_num, ?_⟩
  simp only [decide_eq_false_iff_not]
  omega

/-- On a negative distance the JavaScript formulas collapse to Euclidean
operations on the negated distance, and the expiry flag is true. -/
lemma remainingOfDistance_of_neg {d : Int} (h : d < 0) :
    remainingOfDistance d =
      { days := d / 86400000
        hours := -((-d) % 86400000) / 3600000
        minutes := -((-d) % 3600000) / 60000
        seconds := -((-d) % 60000) / 1000
        expired := true } := by
  unfold remainingOfDistance
  rw [Int.fdiv_eq_ediv _ (by norm_num), Int.fdiv_eq_ediv _ (by norm_num),
    Int.fdiv_eq_ediv _ (by norm_num), Int.fdiv_eq_ediv _ (by norm_num),
    tmod_of_nonpos (by omega) (by norm_num), tmod_of_nonpos (by omega) (by norm_num),
    tmod_of_nonpos (by omega) (by norm_num)]
  simp only [RemainingTime.mk.injEq]
  refine ⟨by norm_num, by norm_num, by norm_num, by norm_num, ?_⟩
  simp only [decide_eq_true_eq]
  omega

/-! ### Length of the decimal representation -/

/-- The digit accumulator always emits at least one character beyond the
accumulator. -/
lemma natDigitsAux_length_ge (fuel : Nat) : ∀ (n : Nat) (acc : List Char),
    acc.length + 1 ≤ (natDigitsAux fuel n acc).length := by
  induction fuel with
  | zero => intro n acc; simp [natDigitsAux]
  | succ fuel ih =>
    intro n acc
    rw [natDigitsAux]
    split
    · simp
    · have := ih (n / 10) (digitOf (n % 10) :: acc)
      simp only [List.length_cons] at this
      omega

/-- A natural number of at least two decimal digits has a digit list of
length at least two. -/
lemma natDigits_length_ge_two {n : Nat} (h : 10 ≤ n) : 2 ≤ (natDigits n).length := by
  obtain ⟨m, rfl⟩ : ∃ m, n = m + 1 := ⟨n - 1, by omega⟩
  rw [natDigits, natDigitsAux, if_neg (by omega)]
  have := natDigitsAux_length_ge m ((m + 1) / 10) [digitOf ((m + 1) % 10)]
  simp only [List.length_singleton] at this
  omega

/-- The decimal string of an integer at least 10 has length at least
two. -/
lemma jsToString_length_ge_two {v : Int} (h : 10 ≤ v) : 2 ≤ (jsToString v).length := by
  rw [jsToString, if_neg (by omega)]
  have h10 : 10 ≤ v.toNat := by omega
  have := natDigits_length_ge_two h10
  simpa using this

/-! ### The claims -/

/-- Claim C1: for every pair of instants with `now < target`, the
remaining-time computation yields `expired = false`, all four unit
values non-negative, hours in [0,23], minutes in [0,59], and seconds in
[0,59]. -/
theorem countdown_c1 (countdownDate now : Int) (h : now < countdownDate) :
    (computeRemaining countdownDate now).expired = false ∧
    0 ≤ (computeRemaining countdownDate now).days ∧
    0 ≤ (computeRemaining countdownDate now).hours ∧
    (computeRemaining countdownDate now).hours ≤ 23 ∧
    0 ≤ (computeRemaining countdownDate now).minutes ∧
    (computeRemaining countdownDate now).minutes ≤ 59 ∧
    0 ≤ (computeRemaining countdownDate now).seconds ∧
    (computeRemaining countdownDate now).seconds ≤ 59 := by
  rw [computeRemaining, remainingOfDistance_of_nonneg (by omega)]
  dsimp only
  exact ⟨rfl, by omega, by omega, by omega, by omega, by omega, by omega, by omega⟩

/-- Witness for C1 at `target = 3601000`, `now = 0`. -/
theorem countdown_c1_witness :
    (0 : Int) < 3601000 ∧
    ((computeRemaining 3601000 0).expired = false ∧
     0 ≤ (computeRemaining 3601000 0).days ∧
     0 ≤ (computeRemaining 3601000 0).hours ∧
     (computeRemaining 3601000 0).hours ≤ 23 ∧
     0 ≤ (computeRemaining 3601000 0).minutes ∧
     (computeRemaining 3601000 0).minutes ≤ 59 ∧
     0 ≤ (computeRemaining 3601000 0).seconds ∧
     (computeRemaining 3601000 0).seconds ≤ 59) :=
  ⟨by decide, countdown_c1 3601000 0 (by decide)⟩

/-- Claim C2 as stated is false on the code: on the tick at
`now = target + 1` the source writes the formatted (negative) seconds
value into the seconds slot even though `expired = true`, because the
four slot writes precede the expiry check. -/
theorem countdown_c2_counterexample :
    (computeRemaining 0 1).expired = true ∧
    (updateCountdown 0 1 ⟨"D", "H", "M", "S", "B", true⟩).secondsSlot =
      padStart2 (jsToString (computeRemaining 0 1).seconds) ∧
    (updateCountdown 0 1 ⟨"D", "H", "M", "S", "B", true⟩).secondsSlot = "-1" := by
  decide

/-- Claim C2, amended: on every tick the four Display Slots are written
with the formatted unit values unconditionally, whether or not expired
is true; only when expired is false are the rendered values guaranteed
non-negative and in their natural modulus ranges. -/
theorem countdown_c2_amended (countdownDate now : Int) (s : PageState) :
    ((updateCountdown countdownDate now s).daysSlot =
        padStart2 (jsToString (computeRemaining countdownDate now).days) ∧
     (updateCountdown countdownDate now s).hoursSlot =
        padStart2 (jsToString (computeRemaining countdownDate now).hours) ∧
     (updateCountdown countdownDate now s).minutesSlot =
        padStart2 (jsToString (computeRemaining countdownDate now).minutes) ∧
     (updateCountdown countdownDate now s).secondsSlot =
        padStart2 (jsToString (computeRemaining countdownDate now).seconds)) ∧
    ((computeRemaining countdownDate now).expired = false →
      0 ≤ (computeRemaining countdownDate now).days ∧
      0 ≤ (computeRemaining countdownDate now).hours ∧
      (computeRemaining countdownDate now).hours ≤ 23 ∧
      0 ≤ (computeRemaining countdownDate now).minutes ∧
      (computeRemaining countdownDate now).minutes ≤ 59 ∧
      0 ≤ (computeRemaining countdownDate now).seconds ∧
      (computeRemaining countdownDate now).seconds ≤ 59) := by
  constructor
  · refine ⟨?_, ?_, ?_, ?_⟩ <;>
      (simp only [updateCountdown, computeRemaining, remainingOfDistance]; split <;> rfl)
  · intro hexp
    have hd : 0 ≤ countdownDate - now := by
      by_contra hneg
      rw [computeRemaining, remainingOfDistance_of_neg (by omega)] at hexp
      simp at hexp
    rw [computeRemaining, remainingOfDistance_of_nonneg hd]
    dsimp only
    exact ⟨by omega, by omega, by omega, by omega, by omega, by omega, by omega⟩

/-- Witness for the amended C2 at `target = 1`, `now = 0`, on a concrete
page state. -/
theorem countdown_c2_amended_witness :
    (updateCountdown 1 0 ⟨"D", "H", "M", "S", "B", true⟩).secondsSlot =
      padStart2 (jsToString (computeRemaining 1 0).seconds) ∧
    (0 ≤ (computeRemaining 1 0).days ∧
     0 ≤ (computeRemaining 1 0).hours ∧
     (computeRemaining 1 0).hours ≤ 23 ∧
     0 ≤ (computeRemaining 1 0).minutes ∧
     (computeRemaining 1 0).minutes ≤ 59 ∧
     0 ≤ (computeRemaining 1 0).seconds ∧
     (computeRemaining 1 0).seconds ≤ 59) :=
  ⟨(countdown_c2_amended 1 0 ⟨"D", "H", "M", "S", "B", true⟩).1.2.2.2,
   (countdown_c2_amended 1 0 ⟨"D", "H", "M", "S", "B", true⟩).2 (by decide)⟩

/-- Claim C3 as stated is false on the code: at `now = target` (both 0)
the hypothesis `now ≥ target` holds yet the computation reports
`expired = false`, because expiry is `distance < 0`, not `≤ 0`. -/
theorem countdown_c3_counterexample :
    (0 : Int) ≥ 0 ∧ (computeRemaining 0 0).expired = false := by
  decide

/-- Claim C3, amended: for every pair of instants with `now > target`
the computation reports `expired = true`; at `now = target` it reports
`expired = false`. -/
theorem countdown_c3_amended (countdownDate now : Int) :
    (countdownDate < now → (computeRemaining countdownDate now).expired = true) ∧
    (now = countdownDate → (computeRemaining countdownDate now).expired = false) := by
  constructor
  · intro h
    rw [computeRemaining, remainingOfDistance_of_neg (by omega)]
  · intro h
    subst h
    rw [computeRemaining, remainingOfDistance_of_nonneg (by omega)]

/-- Witness for the amended C3 at `(target, now) = (0, 1)` and
`(5, 5)`. -/
theorem countdown_c3_amended_witness :
    (computeRemaining 0 1).expired = true ∧ (computeRemaining 5 5).expired = false :=
  ⟨(countdown_c3_amended 0 1).1 (by decide), (countdown_c3_amended 5 5).2 rfl⟩

/-- Claim C4: at the exact boundary `now = target` the distance is 0,
all four unit values are 0, and `expired = false`. -/
theorem countdown_c4 (t : Int) : computeRemaining t t = ⟨0, 0, 0, 0, false⟩ := by
  rw [computeRemaining, sub_self]
  decide

/-- Claim C5: the Running-to-Finished transition is one-time and
irreversible: on a tick observed while the interval is registered and
the distance is negative, the interval is cleared and the display region
holds the terminal message, and delivering any further sample instants
to the scheduler leaves the page state unchanged — no further tick
fires, no slot is written again, and the timer is never re-armed. -/
theorem countdown_c5 (countdownDate n : Int) (s : PageState) (rest : List Int)
    (hrun : s.timerActive = true) (hexp : countdownDate - n < 0) :
    (updateCountdown countdownDate n s).timerActive = false ∧
    (updateCountdown countdownDate n s).boxesHTML = renaissanceMessage ∧
    runTicks countdownDate rest (updateCountdown countdownDate n s) =
      updateCountdown countdownDate n s := by
  have h1 : (updateCountdown countdownDate n s).timerActive = false := by
    simp only [updateCountdown]
    rw [if_pos hexp]
  have h2 : (updateCountdown countdownDate n s).boxesHTML = renaissanceMessage := by
    simp only [updateCountdown]
    rw [if_pos hexp]
  refine ⟨h1, h2, ?_⟩
  cases rest with
  | nil => rfl
  | cons m ms => simp [runTicks, h1]

/-- Witness for C5: an expired tick at `now = target + 1` on a concrete
running page state, with two further scheduled instants delivered. -/
theorem countdown_c5_witness :
    (updateCountdown 0 1 ⟨"D", "H", "M", "S", "B", true⟩).timerActive = false ∧
    (updateCountdown 0 1 ⟨"D", "H", "M", "S", "B", true⟩).boxesHTML = renaissanceMessage ∧
    runTicks 0 [2, 3] (updateCountdown 0 1 ⟨"D", "H", "M", "S", "B", true⟩) =
      updateCountdown 0 1 ⟨"D", "H", "M", "S", "B", true⟩ :=
  countdown_c5 0 1 ⟨"D", "H", "M", "S", "B", true⟩ [2, 3] rfl (by decide)

/-- Claim C6: formatting a unit value in [0,9] yields a two-character
string with a leading zero, and a value at least 10 is rendered as its
plain decimal representation, unchanged. -/
theorem countdown_c6 (v : Int) :
    (0 ≤ v → v ≤ 9 →
      padStart2 (jsToString v) = "0" ++ jsToString v ∧
      (padStart2 (jsToString v)).length = 2) ∧
    (10 ≤ v → padStart2 (jsToString v) = jsToString v) := by
  constructor
  · intro h0 h9
    interval_cases v <;> exact ⟨by decide, by decide⟩
  · intro h10
    rw [padStart2, if_neg (by have := jsToString_length_ge_two h10; omega)]

/-- Witness for C6 at the spec's own examples, 7 and 23. -/
theorem countdown_c6_witness :
    (padStart2 (jsToString 7) = "0" ++ jsToString 7 ∧
     (padStart2 (jsToString 7)).length = 2) ∧
    padStart2 (jsToString 23) = jsToString 23 :=
  ⟨(countdown_c6 7).1 (by decide) (by decide), (countdown_c6 23).2 (by decide)⟩

/-- Claim C7: for every negative distance the truncating-remainder and
floor arithmetic produces unit values that are each negative or zero,
never positive, and the computation reports them unclamped alongside
`expired = true`. -/
theorem countdown_c7 (countdownDate now : Int) (h : countdownDate - now < 0) :
    (computeRemaining countdownDate now).expired = true ∧
    (computeRemaining countdownDate now).days ≤ 0 ∧
    (computeRemaining countdownDate now).hours ≤ 0 ∧
    (computeRemaining countdownDate now).minutes ≤ 0 ∧
    (computeRemaining countdownDate now).seconds ≤ 0 := by
  rw [computeRemaining, remainingOfDistance_of_neg h]
  dsimp only
  exact ⟨rfl, by omega, by omega, by omega, by omega⟩

/-- Witness for C7 at `target = 0`, `now = 1`, where the unclamped
record is `⟨-1, -1, -1, -1, true⟩`. -/
theorem countdown_c7_witness :
    (0 : Int) - 1 < 0 ∧
    ((computeRemaining 0 1).expired = true ∧
     (computeRemaining 0 1).days ≤ 0 ∧
     (computeRemaining 0 1).hours ≤ 0 ∧
     (computeRemaining 0 1).minutes ≤ 0 ∧
     (computeRemaining 0 1).seconds ≤ 0) :=
  ⟨by decide, countdown_c7 0 1 (by decide)⟩

/-- Claim C8: at distance 90,061,001 ms (target = now + 90,061,001) the
computation returns days = 1, hours = 1, minutes = 1, seconds = 1, not
expired. -/
theorem countdown_c8 (now : Int) :
    computeRemaining (now + 90061001) now = ⟨1, 1, 1, 1, false⟩ := by
  rw [computeRemaining]
  have h : now + 90061001 - now = 90061001 := by ring
  rw [h]
  decide

/-- Claim C9: for two computations 1000 ms apart while still running
(the later distance still non-negative), the later seconds value is the
earlier one minus 1 modulo 60. -/
theorem countdown_c9 (countdownDate now : Int)
    (h : 0 ≤ countdownDate - (now + 1000)) :
    (computeRemaining countdownDate (now + 1000)).seconds =
      ((computeRemaining countdownDate now).seconds - 1) % 60 := by
  rw [computeRemaining, computeRemaining, remainingOfDistance_of_nonneg h,
    remainingOfDistance_of_nonneg (show (0 : Int) ≤ countdownDate - now by omega)]
  dsimp only
  omega

/-- Witness for C9 at `target = 100000`, first tick at `now = 0`, second
at `now = 1000`, exercising the 0-to-59 rollover. -/
theorem countdown_c9_witness :
    (0 : Int) ≤ 100000 - (0 + 1000) ∧
    (computeRemaining 100000 (0 + 1000)).seconds =
      ((computeRemaining 100000 0).seconds - 1) % 60 :=
  ⟨by decide, countdown_c9 100000 0 (by decide)⟩

/-- Claim C10: for every non-negative distance the four unit values
exactly decompose the remaining duration down to whole seconds:
days·86,400,000 + hours·3,600,000 + minutes·60,000 + seconds·1,000
equals the distance minus its sub-second remainder. -/
theorem countdown_c10 (countdownDate now : Int) (h : 0 ≤ countdownDate - now) :
    (computeRemaining countdownDate now).days * 86400000 +
      (computeRemaining countdownDate now).hours * 3600000 +
      (computeRemaining countdownDate now).minutes * 60000 +
      (computeRemaining countdownDate now).seconds * 1000 =
    (countdownDate - now) - (countdownDate - now) % 1000 := by
  rw [computeRemaining, remainingOfDistance_of_nonneg h]
  dsimp only
  omega

/-- Witness for C10 at distance 90,061,001 ms. -/
theorem countdown_c10_witness :
    (0 : Int) ≤ 90061001 - 0 ∧
    ((computeRemaining 90061001 0).days * 86400000 +
      (computeRemaining 90061001 0).hours * 3600000 +
      (computeRemaining 90061001 0).minutes * 60000 +
      (computeRemaining 90061001 0).seconds * 1000 =
      ((90061001 : Int) - 0) - ((90061001 : Int) - 0) % 1000) :=
  ⟨by decide, countdown_c10 90061001 0 (by decide)⟩
